import Mathlib

/-!
Verification development for the clone-orchestration and volume-group core of
the ceph-csi driver.  The Go sources are shallowly embedded: pure functions
become Lean functions, and each stateful orchestration routine becomes a pure
function over an explicit backend world together with an oracle that fixes the
outcome of every external backend call; each routine additionally returns the
ordered trace of backend calls it performed, so that properties about
compensation, cleanup and ordering can be stated about the trace.
-/

namespace CephCSI

/-! ## Clone state classification (cephfs/core/clone.go) -/

/-- Progress metrics carried by a clone status, mirroring
`admin.CloneProgressReport` (three string fields in go-ceph). -/
structure CloneProgressReport where
  percentageCloned : String
  amountCloned : String
  filesCloned : String
deriving Repr, DecidableEq, Inhabited

/-- Constant `admin.CloneComplete` of go-ceph. -/
def CloneComplete : String := "complete"

/-- Constant `admin.CloneInProgress` of go-ceph. -/
def CloneInProgress : String := "in-progress"

/-- Constant `admin.ClonePending` of go-ceph. -/
def ClonePending : String := "pending"

/-- Constant `admin.CloneFailed` of go-ceph. -/
def CloneFailed : String := "failed"

/-- `cephFSCloneState` describes the status of the clone; `state` is the
go-ceph `admin.CloneState`, a string. -/
structure cephFSCloneState where
  state : String
  progressReport : CloneProgressReport
  errno : String
  errorMsg : String
deriving Repr, DecidableEq, Inhabited

/-- `CephFSCloneError` is the zero-valued sentinel `&cephFSCloneState{}`:
all fields are the Go zero value (empty strings). -/
def CephFSCloneError : cephFSCloneState := ⟨ "", ⟨ "", "", "" ⟩, "", "" ⟩

/-- Typed errors produced by the embedded operations.  `cloneFailed` and
`invalidClone` carry the backend error message and code, mirroring
`fmt.Errorf("%w: %s (%s)", err, cs.errorMsg, cs.errno)`; `opFailed op` stands
for a generic wrapped error coming out of the backend call named `op`. -/
inductive CephErr where
  | cloneInProgress
  | clonePending
  | cloneFailed (msg errno : String)
  | invalidClone (msg errno : String)
  | imageInUse
  | notFound
  | opFailed (op : String)
deriving Repr, DecidableEq

/-- `ToError` of `cephFSCloneState` (clone.go): a switch on `cs.state` in
source order; `CephFSCloneError.state` is the empty string; a state matching
no case falls out of the switch and yields `nil` (here `none`). -/
def cephFSCloneState.ToError (cs : cephFSCloneState) : Option CephErr :=
  if cs.state = CloneComplete then none
  else if cs.state = CephFSCloneError.state then
    some (CephErr.invalidClone cs.errorMsg cs.errno)
  else if cs.state = CloneInProgress then some CephErr.cloneInProgress
  else if cs.state = ClonePending then some CephErr.clonePending
  else if cs.state = CloneFailed then
    some (CephErr.cloneFailed cs.errorMsg cs.errno)
  else none

/-- Modelled from the spec: `cerrors.IsCloneRetryError` is not under src; the
spec defines the retryable outcomes as exactly `CloneInProgress` and
`ClonePending`. -/
def IsCloneRetryError : CephErr → Bool
  | CephErr.cloneInProgress => true
  | CephErr.clonePending => true
  | _ => false

/-! ## Backend world for the subvolume clone orchestrator -/

/-- Modelled from the spec: the backend visible to the clone orchestrator —
which snapshots and volumes exist and the size of each volume. -/
structure World where
  snapshots : List String
  volumes : List String
  sizes : List (String × Nat)
deriving Repr, DecidableEq

/-- Size of a volume in the backend world, if it exists. -/
def World.volSize (w : World) (vid : String) : Option Nat :=
  (w.sizes.find? (fun p => p.1 == vid)).map (fun p => p.2)

/-- Modelled from the spec: backend snapshot creation, idempotent when the
snapshot already exists. -/
def World.createSnapshot (w : World) (sid : String) : World :=
  if sid ∈ w.snapshots then w
  else { w with snapshots := sid :: w.snapshots }

/-- Modelled from the spec: cloning a snapshot into a new volume; the clone
inherits the parent volume's size; idempotent when the target already
exists. -/
def World.cloneSnapshot (w : World) (parent vid : String) : World :=
  if vid ∈ w.volumes then w
  else
    { w with
      volumes := vid :: w.volumes
      sizes := (vid, (w.volSize parent).getD 0) :: w.sizes }

/-- Modelled from the spec: backend snapshot deletion. -/
def World.deleteSnapshot (w : World) (sid : String) : World :=
  { w with snapshots := w.snapshots.erase sid }

/-- Modelled from the spec: purging (deleting) a volume, including a partially
materialized one. -/
def World.purgeVolume (w : World) (vid : String) : World :=
  { w with
    volumes := w.volumes.erase vid
    sizes := w.sizes.filter (fun p => p.1 != vid) }

/-- Modelled from the spec: resizing a volume to the requested size. -/
def World.expandVolume (w : World) (vid : String) (size : Nat) : World :=
  { w with sizes := (vid, size) :: w.sizes.filter (fun p => p.1 != vid) }

/-- Backend calls issued by the clone orchestrator, in call order.
`compPurge`/`compDeleteSnap` are the calls made by the deferred
compensation block. -/
inductive Action where
  | createSnap (sid : String)
  | cloneSnap (vid : String)
  | queryState
  | expand (vid : String) (size : Nat)
  | deleteSnap (sid : String)
  | compPurge (vid : String)
  | compDeleteSnap (sid : String)
deriving Repr, DecidableEq

/-- Oracle fixing the outcome of each backend call of one orchestrator
invocation: whether each call succeeds, and the clone status returned by
`GetCloneState` (`none` models `GetCloneState` itself failing, in which case
the Go code returns the `CephFSCloneError` sentinel together with the
error). -/
structure CloneOracle where
  createSnapOk : Bool
  cloneSnapOk : Bool
  stateQuery : Option cephFSCloneState
  expandOk : Bool
  deleteSnapOk : Bool
  purgeOk : Bool
  compDeleteOk : Bool
deriving Repr, DecidableEq

/-- Result of one orchestrator invocation: the final backend world, the
returned error, and the ordered trace of backend calls. -/
structure RunResult where
  world : World
  err : Option CephErr
  trace : List Action
deriving Repr, DecidableEq

/-- The deferred compensation block of `CreateCloneFromSubvolume`: purge the
target volume, then delete the intermediate snapshot; both calls are always
made, a failing call leaves the world unchanged and is logged only. -/
def compensateSubvolume (o : CloneOracle) (vid : String) (w : World) :
    World × List Action :=
  let w1 := if o.purgeOk then w.purgeVolume vid else w
  let w2 := if o.compDeleteOk then w1.deleteSnapshot vid else w1
  (w2, [Action.compPurge vid, Action.compDeleteSnap vid])

/-- Exit point of `CreateCloneFromSubvolume` once the deferred block is
registered: the compensation runs exactly when the error being returned is
non-nil and not a retry error; the returned error was fixed before the defer
runs and is never replaced by a compensation error. -/
def exitSubvolume (o : CloneOracle) (vid : String) (w : World)
    (t : List Action) (e : Option CephErr) : RunResult :=
  match e with
  | none => ⟨ w, none, t ⟩
  | some er =>
    if IsCloneRetryError er then ⟨ w, some er, t ⟩
    else
      let c := compensateSubvolume o vid w
      ⟨ c.1, some er, t ++ c.2 ⟩

/-- `subVolumeClient.CreateCloneFromSubvolume` (clone.go): create a snapshot
named after the target volume id on the parent, register the compensation
defer, clone the snapshot, query and classify the clone state, resize the new
volume to the requested size, and delete the intermediate snapshot.  `vid` is
`s.VolID` (also the snapshot name), `reqSize` is `s.Size`. -/
def CreateCloneFromSubvolume (o : CloneOracle) (parent vid : String)
    (reqSize : Nat) (w : World) : RunResult :=
  if o.createSnapOk then
    let w1 := w.createSnapshot vid
    let t1 := [Action.createSnap vid]
    if o.cloneSnapOk then
      let w2 := w1.cloneSnapshot parent vid
      let t2 := t1 ++ [Action.cloneSnap vid]
      match o.stateQuery with
      | none =>
        exitSubvolume o vid w2 (t2 ++ [Action.queryState])
          (some (CephErr.opFailed "GetCloneState"))
      | some cs =>
        let t3 := t2 ++ [Action.queryState]
        match cs.ToError with
        | some e => exitSubvolume o vid w2 t3 (some e)
        | none =>
          if o.expandOk then
            let w3 := w2.expandVolume vid reqSize
            let t4 := t3 ++ [Action.expand vid reqSize]
            if o.deleteSnapOk then
              exitSubvolume o vid (w3.deleteSnapshot vid)
                (t4 ++ [Action.deleteSnap vid]) none
            else
              exitSubvolume o vid w3 (t4 ++ [Action.deleteSnap vid])
                (some (CephErr.opFailed "DeleteSnapshot"))
          else
            exitSubvolume o vid w2 (t3 ++ [Action.expand vid reqSize])
              (some (CephErr.opFailed "ExpandVolume"))
    else
      exitSubvolume o vid w1 (t1 ++ [Action.cloneSnap vid])
        (some (CephErr.opFailed "CloneSnapshot"))
  else
    ⟨ w, some (CephErr.opFailed "CreateSnapshot"), [Action.createSnap vid] ⟩

/-- The deferred compensation block of `CreateCloneFromSnapshot`: it only
purges the target volume (the source snapshot is owned by the caller). -/
def compensateSnapClone (o : CloneOracle) (vid : String) (w : World) :
    World × List Action :=
  let w1 := if o.purgeOk then w.purgeVolume vid else w
  (w1, [Action.compPurge vid])

/-- Exit point of `CreateCloneFromSnapshot` once its deferred block is
registered. -/
def exitSnapClone (o : CloneOracle) (vid : String) (w : World)
    (t : List Action) (e : Option CephErr) : RunResult :=
  match e with
  | none => ⟨ w, none, t ⟩
  | some er =>
    if IsCloneRetryError er then ⟨ w, some er, t ⟩
    else
      let c := compensateSnapClone o vid w
      ⟨ c.1, some er, t ++ c.2 ⟩

/-- `subVolumeClient.CreateCloneFromSnapshot` (clone.go): clone an existing
snapshot into the target volume (a clone-step failure returns before the defer
is registered), query and classify the clone state, and resize to the
requested size; there is no final snapshot deletion. -/
def CreateCloneFromSnapshot (o : CloneOracle) (snapParent vid : String)
    (reqSize : Nat) (w : World) : RunResult :=
  if o.cloneSnapOk then
    let w1 := w.cloneSnapshot snapParent vid
    let t1 := [Action.cloneSnap vid]
    match o.stateQuery with
    | none =>
      exitSnapClone o vid w1 (t1 ++ [Action.queryState])
        (some (CephErr.opFailed "GetCloneState"))
    | some cs =>
      let t2 := t1 ++ [Action.queryState]
      match cs.ToError with
      | some e => exitSnapClone o vid w1 t2 (some e)
      | none =>
        if o.expandOk then
          exitSnapClone o vid (w1.expandVolume vid reqSize)
            (t2 ++ [Action.expand vid reqSize]) none
        else
          exitSnapClone o vid w1 (t2 ++ [Action.expand vid reqSize])
            (some (CephErr.opFailed "ExpandVolume"))
  else
    ⟨ w, some (CephErr.opFailed "CloneSnapshot"), [Action.cloneSnap vid] ⟩

/-! ## Volume groups (internal/rbd/group/volume_group.go) -/

/-- A resolved RBD volume handle: its CSI id and its image name
(`types.Volume` exposes `GetID` and `GetName`). -/
structure Volume where
  id : String
  name : String
deriving Repr, DecidableEq

/-- The in-memory part of `volumeGroup`: the current member volumes, and the
volumes that were resolved during `GetVolumeGroup` and must be freed by
`Destroy`. -/
structure VG where
  volumes : List Volume
  volumesToFree : List Volume
deriving Repr, DecidableEq

/-- Outcome of `getVolumeGroupAttributes`: the group is absent on the backend
(`ErrRBDGroupNotFound`), some other failure, or the persisted volume-ID map. -/
inductive AttrResult where
  | notFound
  | failed
  | ok (volumeMap : List String)
deriving Repr, DecidableEq

/-- Result of `GetVolumeGroup`: the returned group object (if any), the
returned error, and the volume handles on which `Destroy` was invoked by the
cleanup defer during the call. -/
structure LoadResult where
  vg : Option VG
  err : Option CephErr
  destroyed : List Volume
deriving Repr, DecidableEq

/-- The resolution loop of `GetVolumeGroup`: resolve each persisted volume ID
in order; the first failure stops the loop.  Returns the volumes resolved so
far and whether every ID resolved. -/
def resolveVolumes (resolve : String → Option Volume) :
    List String → List Volume × Bool
  | [] => ([], true)
  | vid :: rest =>
    match resolve vid with
    | none => ([], false)
    | some v =>
      let r := resolveVolumes resolve rest
      (v :: r.1, r.2)

/-- `GetVolumeGroup` (volume_group.go): initialize the common group data,
fetch the persisted attributes — on `ErrRBDGroupNotFound` return the still
usable empty group object together with the error — then resolve every member
volume ID.  If a resolution fails, the cleanup defer destroys every volume
resolved so far (the `volumesToFree` list is still empty) and no group is
returned; on success `volumes` and `volumesToFree` are both set to the
resolved volumes, and the defer frees nothing. -/
def GetVolumeGroup (initOk : Bool) (attrs : AttrResult)
    (resolve : String → Option Volume) : LoadResult :=
  if initOk then
    match attrs with
    | AttrResult.notFound => ⟨ some ⟨ [], [] ⟩, some CephErr.notFound, [] ⟩
    | AttrResult.failed =>
      ⟨ none, some (CephErr.opFailed "getVolumeGroupAttributes"), [] ⟩
    | AttrResult.ok volumeMap =>
      let r := resolveVolumes resolve volumeMap
      if r.2 then ⟨ some ⟨ r.1, r.1 ⟩, none, [] ⟩
      else ⟨ none, some (CephErr.opFailed "GetVolumeByID"), r.1 ⟩
  else ⟨ none, some (CephErr.opFailed "initCommonVolumeGroup"), [] ⟩

/-- `volumeGroup.Destroy` (volume_group.go): free exactly the volumes in
`volumesToFree`, then reset that list to empty.  Returns the updated group
and the volumes on which `Destroy` was invoked. -/
def VG.destroyGroup (vg : VG) : VG × List Volume :=
  (⟨ vg.volumes, [] ⟩, vg.volumesToFree)

/-- The backend and journal state surrounding a volume group:
`backendMembers` is the set of image IDs joined to the RBD group, `journal`
the set of volume IDs recorded in the persisted group mapping. -/
structure GroupWorld where
  vg : VG
  backendMembers : List String
  journal : List String
deriving Repr, DecidableEq

/-- Modelled from the spec: idempotent key insertion into an opaque per-group
key/value association (`AddVolumesMapping` sets an omap key). -/
def addMember (xs : List String) (x : String) : List String :=
  if x ∈ xs then xs else xs ++ [x]

/-- Oracle for one `AddVolume` call: whether each backend/journal call
succeeds. -/
structure AddOracle where
  addToGroupOk : Bool
  getVolIDOk : Bool
  getPoolOk : Bool
  getGroupIDOk : Bool
  decomposeOk : Bool
  journalAddOk : Bool
deriving Repr, DecidableEq

/-- `volumeGroup.AddVolume` (volume_group.go): join the volume to the backend
group, append it to the in-memory membership, then record the mapping in the
journal keyed by the decomposed group id.  `volumesToFree` is never
touched. -/
def AddVolume (o : AddOracle) (g : GroupWorld) (v : Volume) :
    GroupWorld × Option CephErr :=
  if o.addToGroupOk then
    let g1 :=
      { g with
        backendMembers := addMember g.backendMembers v.id
        vg := { g.vg with volumes := g.vg.volumes ++ [v] } }
    if o.getVolIDOk then
      if o.getPoolOk then
        if o.getGroupIDOk then
          if o.decomposeOk then
            if o.journalAddOk then
              ({ g1 with journal := addMember g1.journal v.id }, none)
            else (g1, some (CephErr.opFailed "AddVolumesMapping"))
          else (g1, some (CephErr.opFailed "DecomposeCSIID"))
        else (g1, some (CephErr.opFailed "GetID"))
      else (g1, some (CephErr.opFailed "GetPool"))
    else (g1, some (CephErr.opFailed "GetID"))
  else (g, some (CephErr.opFailed "AddToGroup"))

/-- Outcome of `vol.RemoveFromGroup`: success, tolerated
`librbd.ErrNotExist` (the volume was already removed), or a hard failure. -/
inductive RemoveOutcome where
  | ok
  | notExist
  | failed
deriving Repr, DecidableEq

/-- Oracle for one `RemoveVolume` call. -/
structure RemoveOracle where
  removeFromGroup : RemoveOutcome
  getVolIDOk : Bool
  getPoolOk : Bool
  getGroupIDOk : Bool
  decomposeOk : Bool
  journalRemoveOk : Bool
deriving Repr, DecidableEq

/-- `volumeGroup.RemoveVolume` (volume_group.go): a no-op returning success
when the in-memory membership is already empty; `librbd.ErrNotExist` from the
backend removal is tolerated by returning success immediately; otherwise the
in-memory membership is rebuilt excluding the removed volume by ID equality
and the volume's mapping is removed from the journal.  `volumesToFree` is
never touched. -/
def RemoveVolume (o : RemoveOracle) (g : GroupWorld) (v : Volume) :
    GroupWorld × Option CephErr :=
  if g.vg.volumes = [] then (g, none)
  else
    match o.removeFromGroup with
    | RemoveOutcome.failed => (g, some (CephErr.opFailed "RemoveFromGroup"))
    | RemoveOutcome.notExist => (g, none)
    | RemoveOutcome.ok =>
      let g1 := { g with backendMembers := g.backendMembers.erase v.id }
      if o.getVolIDOk then
        let g2 :=
          { g1 with
            vg :=
              { g1.vg with
                volumes := g1.vg.volumes.filter (fun m => m.id != v.id) } }
        if o.getPoolOk then
          if o.getGroupIDOk then
            if o.decomposeOk then
              if o.journalRemoveOk then
                ({ g2 with journal := g2.journal.filter (fun j => j != v.id) },
                  none)
              else (g2, some (CephErr.opFailed "RemoveVolumesMapping"))
            else (g2, some (CephErr.opFailed "DecomposeCSIID"))
          else (g2, some (CephErr.opFailed "GetID"))
        else (g2, some (CephErr.opFailed "GetPool"))
      else (g1, some (CephErr.opFailed "GetID"))

/-- The `AddVolume` oracle in which every backend and journal call
succeeds. -/
def addAllOk : AddOracle := ⟨ true, true, true, true, true, true ⟩

/-- The `RemoveVolume` oracle in which every backend and journal call
succeeds. -/
def removeAllOk : RemoveOracle :=
  ⟨ RemoveOutcome.ok, true, true, true, true, true ⟩

/-- A mutation applied to a loaded group after `GetVolumeGroup`, with the
oracle of its backend calls. -/
inductive GroupOp where
  | add (o : AddOracle) (v : Volume)
  | remove (o : RemoveOracle) (v : Volume)

/-- Apply a sequence of `AddVolume`/`RemoveVolume` mutations to a group. -/
def applyOps (g : GroupWorld) : List GroupOp → GroupWorld
  | [] => g
  | GroupOp.add o v :: rest => applyOps (AddVolume o g v).1 rest
  | GroupOp.remove o v :: rest => applyOps (RemoveVolume o g v).1 rest

/-! ## Group snapshots (volumeGroup.CreateSnapshots) -/

/-- One per-image snapshot entry reported by `librbd.GroupSnapGetInfo`:
the source image name and the snapshot id. -/
structure GroupSnapEntry where
  name : String
  snapID : Nat
deriving Repr, DecidableEq

/-- A materialized durable snapshot object, as produced by
`volume.NewSnapshotByID(ctx, cr, snapName, snapID)`. -/
structure SnapObj where
  volID : String
  volName : String
  snapName : String
  snapID : Nat
deriving Repr, DecidableEq

/-- Outcome of `librbd.GroupSnapCreate`: success, tolerated
`librbd.ErrExist`, or a hard failure. -/
inductive CreateOutcome where
  | ok
  | errExist
  | failed
deriving Repr, DecidableEq

/-- Oracle for one `CreateSnapshots` call: outcomes of the group-level calls,
the constituent entries reported by `GroupSnapGetInfo`, and the constituent
indices at which `NewSnapshotByID` fails. -/
structure GroupSnapOracle where
  getNameOk : Bool
  ioctxOk : Bool
  createOutcome : CreateOutcome
  getInfoOk : Bool
  infoEntries : List GroupSnapEntry
  newSnapFailAt : List Nat
deriving Repr, DecidableEq

/-- Observable events of one `CreateSnapshots` call, in order.  `destroyNil`
records the teardown loop invoking `Destroy` on a slot that holds no
snapshot object — in Go this is a method call on a nil interface value. -/
inductive GEvent where
  | groupSnapCreate
  | groupSnapRemove
  | destroySnap (s : SnapObj)
  | destroyNil
deriving Repr, DecidableEq

/-- Result of one `CreateSnapshots` call: the returned slice (Go returns a
nil slice alongside an error), the returned error, whether the call panicked
instead of returning (a panicking call returns neither a slice nor an
error), the ordered event trace, and the snapshot objects that were
materialized during the call. -/
structure GroupRun where
  ret : Option (List (Option SnapObj))
  err : Option CephErr
  panicked : Bool
  trace : List GEvent
  materialized : List SnapObj
deriving Repr, DecidableEq

/-- The inner loop of `CreateSnapshots`: the first member volume whose name
equals the constituent's image name. -/
def findVolumeByName (vols : List Volume) (n : String) : Option Volume :=
  vols.find? (fun v => v.name == n)

/-- The name given to the durable snapshot materialized from constituent
`i`: `fmt.Sprintf("%s-snap-%d", group, i)`. -/
def groupSnapName (group : String) (i : Nat) : String :=
  group ++ "-snap-" ++ toString i

/-- The outer loop of `CreateSnapshots` over the constituents reported by
`GroupSnapGetInfo`, starting at index `i`.  A constituent with no matching
member leaves its slot unset; a matching constituent materializes a durable
snapshot into its slot, unless `NewSnapshotByID` fails there, which leaves
that slot unset and stops the loop with the error (the remaining
pre-allocated slots stay unset). -/
def materializeLoop (o : GroupSnapOracle) (group : String)
    (vols : List Volume) :
    List GroupSnapEntry → Nat → List (Option SnapObj) × Option CephErr
  | [], _ => ([], none)
  | e :: rest, i =>
    match findVolumeByName vols e.name with
    | none =>
      let r := materializeLoop o group vols rest (i + 1)
      (none :: r.1, r.2)
    | some v =>
      if i ∈ o.newSnapFailAt then
        (none :: rest.map (fun _ => none),
          some (CephErr.opFailed "NewSnapshotByID"))
      else
        let r := materializeLoop o group vols rest (i + 1)
        (some ⟨ v.id, v.name, groupSnapName group i, e.snapID ⟩ :: r.1, r.2)

/-- The teardown defer of `CreateSnapshots`: invoke `Destroy` on each slot
of the pre-allocated result slice, in order.  A slot that holds no snapshot
object is a nil interface value in Go: the `Destroy` call on it is still
made (recorded as `destroyNil`) but is a nil-interface method call, which
panics and aborts the loop — later slots are never reached.  Returns the
events of the calls actually made and whether the loop panicked. -/
def destroyLoop : List (Option SnapObj) → List GEvent × Bool
  | [] => ([], false)
  | none :: _ => ([GEvent.destroyNil], true)
  | some x :: rest =>
    let r := destroyLoop rest
    (GEvent.destroySnap x :: r.1, r.2)

/-- `volumeGroup.CreateSnapshots` (volume_group.go): create the backend-atomic
group snapshot (tolerating `ErrExist`), register the defer that always removes
the transient group snapshot on exit, fetch the constituent list, and
materialize one durable snapshot per matching constituent.  On a
materialization failure the later-registered teardown defer runs first,
invoking `Destroy` on the slots of the result slice in order: it panics at
the first slot holding no snapshot object (a nil-interface method call),
never reaching the later slots; the earlier-registered defer still removes
the group snapshot during panic unwinding, but a panicking call returns
neither the slice nor the error.  Only if the teardown loop completed would
the error be returned with a nil slice. -/
def CreateSnapshots (o : GroupSnapOracle) (group : String)
    (vols : List Volume) : GroupRun :=
  if o.getNameOk then
    if o.ioctxOk then
      match o.createOutcome with
      | CreateOutcome.failed =>
        ⟨ none, some (CephErr.opFailed "GroupSnapCreate"), false,
          [GEvent.groupSnapCreate], [] ⟩
      | _ =>
        if o.getInfoOk then
          let r := materializeLoop o group vols o.infoEntries 0
          match r.2 with
          | some e =>
            let d := destroyLoop r.1
            if d.2 then
              ⟨ none, none, true,
                GEvent.groupSnapCreate :: d.1 ++ [GEvent.groupSnapRemove],
                r.1.filterMap id ⟩
            else
              ⟨ none, some e, false,
                GEvent.groupSnapCreate :: d.1 ++ [GEvent.groupSnapRemove],
                r.1.filterMap id ⟩
          | none =>
            ⟨ some r.1, none, false,
              [GEvent.groupSnapCreate, GEvent.groupSnapRemove],
              r.1.filterMap id ⟩
        else
          ⟨ none, some (CephErr.opFailed "GroupSnapGetInfo"), false,
            [GEvent.groupSnapCreate, GEvent.groupSnapRemove], [] ⟩
    else ⟨ none, some (CephErr.opFailed "GetIOContext"), false, [], [] ⟩
  else ⟨ none, some (CephErr.opFailed "GetName"), false, [], [] ⟩

/-! ## Sparsify and ControllerReclaimSpace -/

/-- Oracle for one `rbdImage.Sparsify` call: the in-use check result (`none`
models the check itself failing), the outcomes of open/stat/sparsify, and the
object order reported by `Stat` (the sparsify chunk is `1 << order`). -/
structure SparsifyOracle where
  inUse : Option Bool
  openOk : Bool
  statOk : Bool
  order : Nat
  sparsifyOk : Bool
deriving Repr, DecidableEq

/-- Image-level calls made by `Sparsify`, in order. -/
inductive SpEvent where
  | openImage
  | statImage
  | sparsifyImage (chunk : Nat)
  | closeImage
deriving Repr, DecidableEq

/-- Result of one `Sparsify` call. -/
structure SparsifyRun where
  err : Option CephErr
  trace : List SpEvent
deriving Repr, DecidableEq

/-- `rbdImage.Sparsify` (rbd_util.go): check whether the image is in use and
return `ErrImageInUse` without any further image call if so; otherwise open
the image (closing it on exit via defer), stat it, and sparsify with chunk
size `1 << order`. -/
def Sparsify (o : SparsifyOracle) : SparsifyRun :=
  match o.inUse with
  | none => ⟨ some (CephErr.opFailed "isInUse"), [] ⟩
  | some true => ⟨ some CephErr.imageInUse, [] ⟩
  | some false =>
    if o.openOk then
      if o.statOk then
        if o.sparsifyOk then
          ⟨ none,
            [SpEvent.openImage, SpEvent.statImage,
              SpEvent.sparsifyImage (2 ^ o.order), SpEvent.closeImage] ⟩
        else
          ⟨ some (CephErr.opFailed "Sparsify"),
            [SpEvent.openImage, SpEvent.statImage,
              SpEvent.sparsifyImage (2 ^ o.order), SpEvent.closeImage] ⟩
      else
        ⟨ some (CephErr.opFailed "Stat"),
          [SpEvent.openImage, SpEvent.statImage, SpEvent.closeImage] ⟩
    else ⟨ some (CephErr.opFailed "open"), [SpEvent.openImage] ⟩

/-- gRPC status codes used by `ControllerReclaimSpace`. -/
inductive GrpcCode where
  | invalidArgument
  | aborted
  | internal
deriving Repr, DecidableEq

/-- Outcome of `ControllerReclaimSpace`: a successful empty response, or a
gRPC error with its code. -/
inductive ReclaimResult where
  | ok
  | err (code : GrpcCode)
deriving Repr, DecidableEq

/-- Oracle for one `ControllerReclaimSpace` call: the request's volume ID,
whether the per-volume lock was acquired, whether the volume resolved, and
the `Sparsify` oracle. -/
structure ReclaimOracle where
  volumeID : String
  lockAcquired : Bool
  getVolumeOk : Bool
  sparsify : SparsifyOracle
deriving Repr, DecidableEq

/-- `ReclaimSpaceControllerServer.ControllerReclaimSpace` (reclaimspace.go):
reject an empty volume ID, an unacquired lock, and an unresolved volume; then
call `Sparsify` — an `ErrImageInUse` result is treated as a benign no-op and
answered with the successful empty response, any other error becomes an
Internal error. -/
def ControllerReclaimSpace (o : ReclaimOracle) : ReclaimResult :=
  if o.volumeID = "" then ReclaimResult.err GrpcCode.invalidArgument
  else if o.lockAcquired then
    if o.getVolumeOk then
      match (Sparsify o.sparsify).err with
      | some CephErr.imageInUse => ReclaimResult.ok
      | some _ => ReclaimResult.err GrpcCode.internal
      | none => ReclaimResult.ok
    else ReclaimResult.err GrpcCode.aborted
  else ReclaimResult.err GrpcCode.aborted

/-! ## Basic world lemmas -/

theorem World.snapshots_cloneSnapshot (w : World) (p v : String) :
    (w.cloneSnapshot p v).snapshots = w.snapshots := by
  unfold World.cloneSnapshot; split <;> rfl

theorem World.mem_snapshots_createSnapshot (w : World) (s : String) :
    s ∈ (w.createSnapshot s).snapshots := by
  unfold World.createSnapshot; split
  · assumption
  · exact List.mem_cons_self _ _

theorem World.createSnapshot_eq_of_mem {w : World} {s : String}
    (h : s ∈ w.snapshots) : w.createSnapshot s = w := by
  simp [World.createSnapshot, h]

theorem World.mem_volumes_cloneSnapshot (w : World) (p v : String) :
    v ∈ (w.cloneSnapshot p v).volumes := by
  unfold World.cloneSnapshot; split
  · assumption
  · exact List.mem_cons_self _ _

theorem World.cloneSnapshot_eq_of_mem {w : World} {p v : String}
    (h : v ∈ w.volumes) : w.cloneSnapshot p v = w := by
  simp [World.cloneSnapshot, h]

theorem World.volSize_expandVolume (w : World) (vid : String) (n : Nat) :
    (w.expandVolume vid n).volSize vid = some n := by
  simp [World.expandVolume, World.volSize, List.find?]

theorem World.sizes_deleteSnapshot (w : World) (s : String) :
    (w.deleteSnapshot s).sizes = w.sizes := rfl

theorem World.snapshots_expandVolume (w : World) (vid : String) (n : Nat) :
    (w.expandVolume vid n).snapshots = w.snapshots := rfl

/-! ## C1 — clone state classification -/

/-- C1 counterexample: at the unrecognized clone state "canceled" the
classification returns success (`none`), not the terminal `InvalidClone`
error carrying the backend code and message that the claim requires for
unrecognized states. -/
theorem claim_C1_cex :
    cephFSCloneState.ToError ⟨ "canceled", ⟨ "", "", "" ⟩, "42", "boom" ⟩
        = none ∧
    cephFSCloneState.ToError ⟨ "canceled", ⟨ "", "", "" ⟩, "42", "boom" ⟩
        ≠ some (CephErr.invalidClone "boom" "42") := by
  constructor
  · rfl
  · decide

/-- C1 (amended): `ToError` maps Complete to success; InProgress to the
retryable `CloneInProgress`; Pending to the retryable `ClonePending`; Failed
to the terminal `CloneFailed` carrying the backend code and message; the
Invalid (empty, `CephFSCloneError`) state to the terminal `InvalidClone`
carrying the backend code and message; and any other unrecognized state to
success (no error). -/
theorem claim_C1_amended (pr : CloneProgressReport) (errno msg : String) :
    cephFSCloneState.ToError ⟨ CloneComplete, pr, errno, msg ⟩ = none ∧
    cephFSCloneState.ToError ⟨ CloneInProgress, pr, errno, msg ⟩
        = some CephErr.cloneInProgress ∧
    cephFSCloneState.ToError ⟨ ClonePending, pr, errno, msg ⟩
        = some CephErr.clonePending ∧
    cephFSCloneState.ToError ⟨ CloneFailed, pr, errno, msg ⟩
        = some (CephErr.cloneFailed msg errno) ∧
    cephFSCloneState.ToError ⟨ "", pr, errno, msg ⟩
        = some (CephErr.invalidClone msg errno) ∧
    (∀ s : String,
      s ∉ [CloneComplete, "", CloneInProgress, ClonePending, CloneFailed] →
      cephFSCloneState.ToError ⟨ s, pr, errno, msg ⟩ = none) := by
  refine ⟨ rfl, rfl, rfl, rfl, rfl, fun s hs => ?_ ⟩
  simp only [List.mem_cons, List.mem_singleton, not_or] at hs
  obtain ⟨ h1, h2, h3, h4, h5, _ ⟩ := hs
  simp [cephFSCloneState.ToError, CephFSCloneError, h1, h2, h3, h4, h5]

/-- C1 witness: the amended claim evaluated at a concrete unrecognized
state. -/
theorem claim_C1_amended_witness :
    cephFSCloneState.ToError ⟨ "splitting", ⟨ "", "", "" ⟩, "5", "m" ⟩
      = none := by
  have h := claim_C1_amended ⟨ "", "", "" ⟩ "5" "m"
  exact h.2.2.2.2.2 "splitting" (by decide)

/-! ## C9 — in-use volumes and space reclamation -/

/-- C9: when the image is in use, `Sparsify` returns `ErrImageInUse` without
opening or touching the image (its call trace is empty), and
`ControllerReclaimSpace` treats that error as a benign no-op, answering with
the successful empty response instead of an error. -/
theorem claim_C9 (o : ReclaimOracle) (hid : o.volumeID ≠ "")
    (hl : o.lockAcquired = true) (hg : o.getVolumeOk = true)
    (hu : o.sparsify.inUse = some true) :
    Sparsify o.sparsify = ⟨ some CephErr.imageInUse, [] ⟩ ∧
    ControllerReclaimSpace o = ReclaimResult.ok := by
  have hs : Sparsify o.sparsify = ⟨ some CephErr.imageInUse, [] ⟩ := by
    simp [Sparsify, hu]
  refine ⟨ hs, ?_ ⟩
  simp [ControllerReclaimSpace, hid, hl, hg, hs]

/-- C9 witness: the claim evaluated at a concrete in-use request. -/
theorem claim_C9_witness :
    Sparsify ⟨ some true, true, true, 3, true ⟩
        = ⟨ some CephErr.imageInUse, [] ⟩ ∧
    ControllerReclaimSpace
        ⟨ "vol-1", true, true, ⟨ some true, true, true, 3, true ⟩ ⟩
      = ReclaimResult.ok :=
  claim_C9 ⟨ "vol-1", true, true, ⟨ some true, true, true, 3, true ⟩ ⟩
    (by decide) rfl rfl rfl

/-! ## C6 — loading a volume group -/

/-- C6: when the group does not exist on the backend, `GetVolumeGroup`
returns a usable-but-empty group object together with the NotFound error, so
the caller can distinguish must-create from hard failure; when instead some
member volume fails to resolve, it destroys exactly the volume handles it had
already resolved in that call and returns no group. -/
theorem claim_C6 (initOk : Bool) (attrs : AttrResult)
    (resolve : String → Option Volume) (m : List String) :
    (initOk = true → attrs = AttrResult.notFound →
      GetVolumeGroup initOk attrs resolve =
        ⟨ some ⟨ [], [] ⟩, some CephErr.notFound, [] ⟩) ∧
    (initOk = true → attrs = AttrResult.ok m →
      (resolveVolumes resolve m).2 = false →
      GetVolumeGroup initOk attrs resolve =
        ⟨ none, some (CephErr.opFailed "GetVolumeByID"),
          (resolveVolumes resolve m).1 ⟩) := by
  constructor
  · rintro rfl rfl
    simp [GetVolumeGroup]
  · rintro rfl rfl h
    simp [GetVolumeGroup, h]

/-- C6 witness: a two-member group whose second member fails to resolve
destroys the first, already-resolved handle; a missing group yields the empty
group plus NotFound. -/
theorem claim_C6_witness :
    GetVolumeGroup true (AttrResult.ok ["v1", "v2"])
        (fun vid => if vid = "v1" then some ⟨ "v1", "img1" ⟩ else none) =
      ⟨ none, some (CephErr.opFailed "GetVolumeByID"), [⟨ "v1", "img1" ⟩] ⟩ ∧
    GetVolumeGroup true AttrResult.notFound (fun _ => none) =
      ⟨ some ⟨ [], [] ⟩, some CephErr.notFound, [] ⟩ := by
  constructor
  · have h := (claim_C6 true (AttrResult.ok ["v1", "v2"])
      (fun vid => if vid = "v1" then some ⟨ "v1", "img1" ⟩ else none)
      ["v1", "v2"]).2 rfl rfl (by decide)
    simpa using h
  · exact (claim_C6 true AttrResult.notFound (fun _ => none) []).1 rfl rfl

/-! ## C7 — ownership of loaded volumes -/

theorem AddVolume_volumesToFree (o : AddOracle) (g : GroupWorld) (v : Volume) :
    (AddVolume o g v).1.vg.volumesToFree = g.vg.volumesToFree := by
  rcases o with ⟨ a, b, c, d, e, f ⟩
  cases a <;> cases b <;> cases c <;> cases d <;> cases e <;> cases f <;> rfl

theorem RemoveVolume_volumesToFree (o : RemoveOracle) (g : GroupWorld)
    (v : Volume) : (RemoveVolume o g v).1.vg.volumesToFree
      = g.vg.volumesToFree := by
  rcases o with ⟨ a, b, c, d, e, f ⟩
  by_cases hem : g.vg.volumes = []
  · simp [RemoveVolume, hem]
  · cases a <;> cases b <;> cases c <;> cases d <;> cases e <;> cases f <;>
      simp [RemoveVolume, hem]

theorem applyOps_volumesToFree (ops : List GroupOp) (g : GroupWorld) :
    (applyOps g ops).vg.volumesToFree = g.vg.volumesToFree := by
  induction ops generalizing g with
  | nil => rfl
  | cons op rest ih =>
    cases op with
    | add o v => rw [applyOps, ih, AddVolume_volumesToFree]
    | remove o v => rw [applyOps, ih, RemoveVolume_volumesToFree]

/-- C7: after any sequence of `AddVolume`/`RemoveVolume` mutations,
`Destroy` releases exactly the volume handles recorded at load time in
`volumesToFree` — caller-added volumes that were not part of that set are
never released — and a successfully loaded group records as `volumesToFree`
exactly the volumes its resolver produced. -/
theorem claim_C7 (g : GroupWorld) (ops : List GroupOp) (v : Volume)
    (resolve : String → Option Volume) (m : List String) (g0 : VG) :
    ((applyOps g ops).vg.destroyGroup).2 = g.vg.volumesToFree ∧
    (v ∉ g.vg.volumesToFree → v ∉ ((applyOps g ops).vg.destroyGroup).2) ∧
    (GetVolumeGroup true (AttrResult.ok m) resolve = ⟨ some g0, none, [] ⟩ →
      g0.volumesToFree = (resolveVolumes resolve m).1 ∧
      g0.volumesToFree = g0.volumes) := by
  have hfree := applyOps_volumesToFree ops g
  refine ⟨ ?_, ?_, ?_ ⟩
  · rw [VG.destroyGroup, hfree]
  · intro hv
    rw [VG.destroyGroup, hfree]
    exact hv
  · intro hload
    have hdef : GetVolumeGroup true (AttrResult.ok m) resolve =
        (if (resolveVolumes resolve m).2 then
          ⟨ some ⟨ (resolveVolumes resolve m).1,
              (resolveVolumes resolve m).1 ⟩, none, [] ⟩
        else
          ⟨ none, some (CephErr.opFailed "GetVolumeByID"),
            (resolveVolumes resolve m).1 ⟩) := rfl
    rw [hdef] at hload
    by_cases hok : (resolveVolumes resolve m).2
    · rw [if_pos hok] at hload
      simp only [LoadResult.mk.injEq, Option.some.injEq] at hload
      obtain ⟨ hg0, - ⟩ := hload
      subst hg0
      exact ⟨ rfl, rfl ⟩
    · rw [if_neg hok] at hload
      exact absurd hload (by simp)

/-- C7 witness: a group loaded with one volume, mutated by adding a
caller-owned volume, still destroys exactly the loaded volume. -/
theorem claim_C7_witness :
    ((applyOps
        ⟨ ⟨ [⟨ "a", "imgA" ⟩], [⟨ "a", "imgA" ⟩] ⟩, ["a"], ["a"] ⟩
        [GroupOp.add ⟨ true, true, true, true, true, true ⟩
          ⟨ "b", "imgB" ⟩]).vg.destroyGroup).2 = [⟨ "a", "imgA" ⟩] ∧
    (⟨ "b", "imgB" ⟩ : Volume) ∉
      ((applyOps
        ⟨ ⟨ [⟨ "a", "imgA" ⟩], [⟨ "a", "imgA" ⟩] ⟩, ["a"], ["a"] ⟩
        [GroupOp.add ⟨ true, true, true, true, true, true ⟩
          ⟨ "b", "imgB" ⟩]).vg.destroyGroup).2 := by
  have h := claim_C7
    ⟨ ⟨ [⟨ "a", "imgA" ⟩], [⟨ "a", "imgA" ⟩] ⟩, ["a"], ["a"] ⟩
    [GroupOp.add ⟨ true, true, true, true, true, true ⟩ ⟨ "b", "imgB" ⟩]
    ⟨ "b", "imgB" ⟩ (fun _ => none) [] ⟨ [], [] ⟩
  exact ⟨ h.1, h.2.1 (by decide) ⟩

/-! ## C8 — removing a volume from a group -/

/-- C8: `RemoveVolume` is a no-op returning success when the in-memory
membership is already empty; it tolerates the backend reporting the volume
already removed; on the normal path it rebuilds the in-memory membership
excluding the volume by ID equality; and `AddVolume` followed by
`RemoveVolume` of a fresh volume restores the member list, with the journal
mapping matching the resulting membership exactly. -/
theorem claim_C8 (g : GroupWorld) (v : Volume) (o1 o2 o3 : RemoveOracle) :
    (g.vg.volumes = [] → RemoveVolume o1 g v = (g, none)) ∧
    (g.vg.volumes ≠ [] → o2.removeFromGroup = RemoveOutcome.notExist →
      RemoveVolume o2 g v = (g, none)) ∧
    (g.vg.volumes ≠ [] → o3.removeFromGroup = RemoveOutcome.ok →
      o3.getVolIDOk = true →
      (RemoveVolume o3 g v).1.vg.volumes
        = g.vg.volumes.filter (fun m => m.id != v.id)) ∧
    (v.id ∉ g.vg.volumes.map Volume.id →
      g.journal = g.vg.volumes.map Volume.id →
      (AddVolume addAllOk g v).2 = none ∧
      (RemoveVolume removeAllOk (AddVolume addAllOk g v).1 v).2 = none ∧
      (RemoveVolume removeAllOk (AddVolume addAllOk g v).1 v).1.vg.volumes
        = g.vg.volumes ∧
      (RemoveVolume removeAllOk (AddVolume addAllOk g v).1 v).1.journal
        = ((RemoveVolume removeAllOk (AddVolume addAllOk g v).1 v).1.vg.volumes.map
            Volume.id)) := by
  refine ⟨ ?_, ?_, ?_, ?_ ⟩
  · intro hem
    simp [RemoveVolume, hem]
  · intro hne h2
    simp [RemoveVolume, hne, h2]
  · intro hne h2 h3
    rcases o3 with ⟨ ro, b, c, d, e, f ⟩
    simp only at h2 h3
    subst h2
    subst h3
    cases c <;> cases d <;> cases e <;> cases f <;>
      simp [RemoveVolume, hne]
  · intro hid hj
    have hmem : ∀ m ∈ g.vg.volumes, m.id ≠ v.id := by
      intro m hm heq
      exact hid (heq ▸ List.mem_map_of_mem Volume.id hm)
    have hjid : v.id ∉ g.journal := by
      rw [hj]
      exact hid
    have hja : addMember g.journal v.id = g.journal ++ [v.id] := by
      simp [addMember, hjid]
    have hne2 : ¬(g.vg.volumes ++ [v] = []) := by simp
    have hfv : (g.vg.volumes ++ [v]).filter (fun m => m.id != v.id)
        = g.vg.volumes := by
      rw [List.filter_append]
      have h1 : g.vg.volumes.filter (fun m => m.id != v.id)
          = g.vg.volumes :=
        List.filter_eq_self.mpr (fun m hm => bne_iff_ne.mpr (hmem m hm))
      have h2 : [v].filter (fun m => m.id != v.id) = [] := by
        simp [List.filter]
      rw [h1, h2, List.append_nil]
    have hfj : (g.journal ++ [v.id]).filter (fun j => j != v.id)
        = g.journal := by
      rw [List.filter_append]
      have h1 : g.journal.filter (fun j => j != v.id) = g.journal :=
        List.filter_eq_self.mpr (fun j hjm =>
          bne_iff_ne.mpr (fun hEq => hjid (hEq ▸ hjm)))
      have h2 : [v.id].filter (fun j => j != v.id) = [] := by
        simp [List.filter]
      rw [h1, h2, List.append_nil]
    have hg1 : (AddVolume addAllOk g v).1 =
        ⟨ ⟨ g.vg.volumes ++ [v], g.vg.volumesToFree ⟩,
          addMember g.backendMembers v.id, addMember g.journal v.id ⟩ := rfl
    have hrm : RemoveVolume removeAllOk (AddVolume addAllOk g v).1 v =
        ( ⟨ ⟨ (g.vg.volumes ++ [v]).filter (fun m => m.id != v.id),
              g.vg.volumesToFree ⟩,
            (addMember g.backendMembers v.id).erase v.id,
            (addMember g.journal v.id).filter (fun j => j != v.id) ⟩,
          none ) := by
      rw [hg1]
      simp [RemoveVolume, removeAllOk, hne2]
    refine ⟨ rfl, ?_, ?_, ?_ ⟩
    · rw [hrm]
    · rw [hrm]
      exact hfv
    · rw [hrm]
      show (addMember g.journal v.id).filter (fun j => j != v.id)
        = ((g.vg.volumes ++ [v]).filter (fun m => m.id != v.id)).map Volume.id
      rw [hja, hfj, hfv]
      exact hj

/-- C8 witness: a one-member group with a fresh volume added and removed
returns to its original membership with the journal matching it; the
empty-membership no-op and the tolerated already-removed case evaluated
concretely. -/
theorem claim_C8_witness :
    RemoveVolume removeAllOk ⟨ ⟨ [], [] ⟩, [], [] ⟩ ⟨ "b", "imgB" ⟩
        = (⟨ ⟨ [], [] ⟩, [], [] ⟩, none) ∧
    RemoveVolume ⟨ RemoveOutcome.notExist, true, true, true, true, true ⟩
        ⟨ ⟨ [⟨ "a", "imgA" ⟩], [] ⟩, ["a"], ["a"] ⟩ ⟨ "b", "imgB" ⟩
      = (⟨ ⟨ [⟨ "a", "imgA" ⟩], [] ⟩, ["a"], ["a"] ⟩, none) ∧
    (RemoveVolume removeAllOk
        (AddVolume addAllOk
          ⟨ ⟨ [⟨ "a", "imgA" ⟩], [] ⟩, ["a"], ["a"] ⟩ ⟨ "b", "imgB" ⟩).1
        ⟨ "b", "imgB" ⟩).1.vg.volumes = [⟨ "a", "imgA" ⟩] ∧
    (RemoveVolume removeAllOk
        (AddVolume addAllOk
          ⟨ ⟨ [⟨ "a", "imgA" ⟩], [] ⟩, ["a"], ["a"] ⟩ ⟨ "b", "imgB" ⟩).1
        ⟨ "b", "imgB" ⟩).1.journal = ["a"] := by
  have h0 := (claim_C8 ⟨ ⟨ [], [] ⟩, [], [] ⟩ ⟨ "b", "imgB" ⟩
    removeAllOk removeAllOk removeAllOk).1 rfl
  have h := claim_C8 ⟨ ⟨ [⟨ "a", "imgA" ⟩], [] ⟩, ["a"], ["a"] ⟩
    ⟨ "b", "imgB" ⟩ removeAllOk
    ⟨ RemoveOutcome.notExist, true, true, true, true, true ⟩ removeAllOk
  have hrt := h.2.2.2 (by decide) rfl
  refine ⟨ h0, h.2.1 (by decide) rfl, hrt.2.2.1, ?_ ⟩
  rw [hrt.2.2.2, hrt.2.2.1]
  rfl

/-! ## C2 and C10 — group snapshots -/

/-- C2: evaluating `CreateSnapshots` at the failing input — members img1 and
img2, constituents [imgX (matching no member), img1, img2], with the img2
materialization failing — refutes the claim's teardown clause: the img1
snapshot was materialized, yet the teardown defer panics invoking `Destroy`
on the nil slot left by the unmatched imgX before ever reaching it, so that
snapshot is never destroyed and the error is never returned (the call
panics); the transient group snapshot is still removed during unwinding. -/
theorem claim_C2_eval :
    (CreateSnapshots
        ⟨ true, true, CreateOutcome.ok, true,
          [⟨ "imgX", 1 ⟩, ⟨ "img1", 2 ⟩, ⟨ "img2", 3 ⟩], [2] ⟩
        "g" [⟨ "v1", "img1" ⟩, ⟨ "v2", "img2" ⟩]).panicked = true ∧
    (CreateSnapshots
        ⟨ true, true, CreateOutcome.ok, true,
          [⟨ "imgX", 1 ⟩, ⟨ "img1", 2 ⟩, ⟨ "img2", 3 ⟩], [2] ⟩
        "g" [⟨ "v1", "img1" ⟩, ⟨ "v2", "img2" ⟩]).err = none ∧
    (⟨ "v1", "img1", "g-snap-1", 2 ⟩ : SnapObj) ∈
      (CreateSnapshots
        ⟨ true, true, CreateOutcome.ok, true,
          [⟨ "imgX", 1 ⟩, ⟨ "img1", 2 ⟩, ⟨ "img2", 3 ⟩], [2] ⟩
        "g" [⟨ "v1", "img1" ⟩, ⟨ "v2", "img2" ⟩]).materialized ∧
    GEvent.destroySnap ⟨ "v1", "img1", "g-snap-1", 2 ⟩ ∉
      (CreateSnapshots
        ⟨ true, true, CreateOutcome.ok, true,
          [⟨ "imgX", 1 ⟩, ⟨ "img1", 2 ⟩, ⟨ "img2", 3 ⟩], [2] ⟩
        "g" [⟨ "v1", "img1" ⟩, ⟨ "v2", "img2" ⟩]).trace ∧
    GEvent.groupSnapRemove ∈
      (CreateSnapshots
        ⟨ true, true, CreateOutcome.ok, true,
          [⟨ "imgX", 1 ⟩, ⟨ "img1", 2 ⟩, ⟨ "img2", 3 ⟩], [2] ⟩
        "g" [⟨ "v1", "img1" ⟩, ⟨ "v2", "img2" ⟩]).trace := by
  refine ⟨ rfl, rfl, ?_, ?_, ?_ ⟩ <;> decide

/-- C10: evaluating `CreateSnapshots` at the failing input — one member
whose matching constituent fails to materialize — shows the failure-teardown
loop invoking `Destroy` on the nil slot left by the failed materialization
(in Go, a method call on a nil interface, which panics, so the call returns
nothing), and a successful run with an unmatched constituent returning a
slice that contains a nil entry. -/
theorem claim_C10_eval :
    (CreateSnapshots
        ⟨ true, true, CreateOutcome.ok, true, [⟨ "img1", 7 ⟩], [0] ⟩
        "g" [⟨ "v1", "img1" ⟩]).panicked = true ∧
    GEvent.destroyNil ∈
      (CreateSnapshots
        ⟨ true, true, CreateOutcome.ok, true, [⟨ "img1", 7 ⟩], [0] ⟩
        "g" [⟨ "v1", "img1" ⟩]).trace ∧
    (CreateSnapshots
        ⟨ true, true, CreateOutcome.ok, true, [⟨ "imgX", 7 ⟩], [] ⟩
        "g" [⟨ "v1", "img1" ⟩]).ret = some [none] := by
  refine ⟨ rfl, ?_, rfl ⟩
  decide

/-! ## Run-shape lemmas for the clone orchestrator -/

theorem err_exitSubvolume (o : CloneOracle) (vid : String) (w : World)
    (t : List Action) (e : Option CephErr) :
    (exitSubvolume o vid w t e).err = e := by
  rcases e with _ | er
  · rfl
  · by_cases h : IsCloneRetryError er = true
    · simp [exitSubvolume, h]
    · simp [exitSubvolume, h]

theorem err_exitSnapClone (o : CloneOracle) (vid : String) (w : World)
    (t : List Action) (e : Option CephErr) :
    (exitSnapClone o vid w t e).err = e := by
  rcases e with _ | er
  · rfl
  · by_cases h : IsCloneRetryError er = true
    · simp [exitSnapClone, h]
    · simp [exitSnapClone, h]

theorem subvolRetryRun (o : CloneOracle) (parent vid : String)
    (reqSize : Nat) (w : World) (cs : cephFSCloneState) (e : CephErr)
    (ha : o.createSnapOk = true) (hb : o.cloneSnapOk = true)
    (hsq : o.stateQuery = some cs) (hte : cs.ToError = some e)
    (hre : IsCloneRetryError e = true) :
    CreateCloneFromSubvolume o parent vid reqSize w =
      ⟨ (w.createSnapshot vid).cloneSnapshot parent vid, some e,
        [Action.createSnap vid, Action.cloneSnap vid, Action.queryState] ⟩ := by
  rcases o with ⟨ a, b, sq, c, d, p, q ⟩
  simp only at ha hb hsq
  subst ha
  subst hb
  subst hsq
  simp [CreateCloneFromSubvolume, hte, exitSubvolume, hre]

theorem subvolRetryShape (o : CloneOracle) (parent vid : String)
    (reqSize : Nat) (w : World) (e : CephErr)
    (h1 : (CreateCloneFromSubvolume o parent vid reqSize w).err = some e)
    (h2 : IsCloneRetryError e = true) :
    o.createSnapOk = true ∧ o.cloneSnapOk = true ∧
    ∃ cs, o.stateQuery = some cs ∧ cs.ToError = some e := by
  rcases o with ⟨ a, b, sq, c, d, p, q ⟩
  cases a
  · simp [CreateCloneFromSubvolume] at h1
    subst h1
    simp [IsCloneRetryError] at h2
  cases b
  · simp [CreateCloneFromSubvolume, err_exitSubvolume] at h1
    subst h1
    simp [IsCloneRetryError] at h2
  rcases sq with _ | cs
  · simp [CreateCloneFromSubvolume, err_exitSubvolume] at h1
    subst h1
    simp [IsCloneRetryError] at h2
  rcases hte : cs.ToError with _ | e2
  · cases c
    · simp [CreateCloneFromSubvolume, hte, err_exitSubvolume] at h1
      subst h1
      simp [IsCloneRetryError] at h2
    · cases d
      · simp [CreateCloneFromSubvolume, hte, err_exitSubvolume] at h1
        subst h1
        simp [IsCloneRetryError] at h2
      · simp [CreateCloneFromSubvolume, hte, err_exitSubvolume] at h1
  · simp [CreateCloneFromSubvolume, hte, err_exitSubvolume] at h1
    subst h1
    exact ⟨ rfl, rfl, cs, rfl, hte ⟩

theorem snapRetryRun (o : CloneOracle) (snapParent vid : String)
    (reqSize : Nat) (w : World) (cs : cephFSCloneState) (e : CephErr)
    (hb : o.cloneSnapOk = true) (hsq : o.stateQuery = some cs)
    (hte : cs.ToError = some e) (hre : IsCloneRetryError e = true) :
    CreateCloneFromSnapshot o snapParent vid reqSize w =
      ⟨ w.cloneSnapshot snapParent vid, some e,
        [Action.cloneSnap vid, Action.queryState] ⟩ := by
  rcases o with ⟨ a, b, sq, c, d, p, q ⟩
  simp only at hb hsq
  subst hb
  subst hsq
  simp [CreateCloneFromSnapshot, hte, exitSnapClone, hre]

theorem snapRetryShape (o : CloneOracle) (snapParent vid : String)
    (reqSize : Nat) (w : World) (e : CephErr)
    (h1 : (CreateCloneFromSnapshot o snapParent vid reqSize w).err = some e)
    (h2 : IsCloneRetryError e = true) :
    o.cloneSnapOk = true ∧
    ∃ cs, o.stateQuery = some cs ∧ cs.ToError = some e := by
  rcases o with ⟨ a, b, sq, c, d, p, q ⟩
  cases b
  · simp [CreateCloneFromSnapshot] at h1
    subst h1
    simp [IsCloneRetryError] at h2
  rcases sq with _ | cs
  · simp [CreateCloneFromSnapshot, err_exitSnapClone] at h1
    subst h1
    simp [IsCloneRetryError] at h2
  rcases hte : cs.ToError with _ | e2
  · cases c
    · simp [CreateCloneFromSnapshot, hte, err_exitSnapClone] at h1
      subst h1
      simp [IsCloneRetryError] at h2
    · simp [CreateCloneFromSnapshot, hte, err_exitSnapClone] at h1
  · simp [CreateCloneFromSnapshot, hte, err_exitSnapClone] at h1
    subst h1
    exact ⟨ rfl, cs, rfl, hte ⟩

/-! ## C3 — retryable outcomes run no compensation and retry safely -/

/-- C3: whenever `CreateCloneFromSubvolume` or `CreateCloneFromSnapshot`
returns a retryable clone-state error (Pending or InProgress), no
compensation ran — the target volume is not purged and the intermediate
snapshot is not deleted, both remaining present in the backend — and
re-invoking the identical operation returns the identical result without
duplicating the snapshot or the clone. -/
theorem claim_C3 (o : CloneOracle) (parent vid : String) (reqSize : Nat)
    (w : World) (e e2 : CephErr) :
    ((CreateCloneFromSubvolume o parent vid reqSize w).err = some e →
      IsCloneRetryError e = true →
      (Action.compPurge vid
          ∉ (CreateCloneFromSubvolume o parent vid reqSize w).trace ∧
        Action.compDeleteSnap vid
          ∉ (CreateCloneFromSubvolume o parent vid reqSize w).trace ∧
        Action.deleteSnap vid
          ∉ (CreateCloneFromSubvolume o parent vid reqSize w).trace ∧
        vid ∈ (CreateCloneFromSubvolume o parent vid reqSize w).world.snapshots ∧
        vid ∈ (CreateCloneFromSubvolume o parent vid reqSize w).world.volumes ∧
        CreateCloneFromSubvolume o parent vid reqSize
            (CreateCloneFromSubvolume o parent vid reqSize w).world
          = CreateCloneFromSubvolume o parent vid reqSize w)) ∧
    ((CreateCloneFromSnapshot o parent vid reqSize w).err = some e2 →
      IsCloneRetryError e2 = true →
      (Action.compPurge vid
          ∉ (CreateCloneFromSnapshot o parent vid reqSize w).trace ∧
        vid ∈ (CreateCloneFromSnapshot o parent vid reqSize w).world.volumes ∧
        CreateCloneFromSnapshot o parent vid reqSize
            (CreateCloneFromSnapshot o parent vid reqSize w).world
          = CreateCloneFromSnapshot o parent vid reqSize w)) := by
  constructor
  · intro h1 h2
    obtain ⟨ ha, hb, cs, hsq, hte ⟩ :=
      subvolRetryShape o parent vid reqSize w e h1 h2
    have hres := subvolRetryRun o parent vid reqSize w cs e ha hb hsq hte h2
    rw [hres]
    have hsnap : vid ∈ ((w.createSnapshot vid).cloneSnapshot parent
        vid).snapshots := by
      rw [World.snapshots_cloneSnapshot]
      exact World.mem_snapshots_createSnapshot w vid
    have hvol : vid ∈ ((w.createSnapshot vid).cloneSnapshot parent
        vid).volumes :=
      World.mem_volumes_cloneSnapshot _ parent vid
    refine ⟨ by simp, by simp, by simp, hsnap, hvol, ?_ ⟩
    have hres2 := subvolRetryRun o parent vid reqSize
      ((w.createSnapshot vid).cloneSnapshot parent vid) cs e ha hb hsq hte h2
    rw [hres2, World.createSnapshot_eq_of_mem hsnap,
      World.cloneSnapshot_eq_of_mem hvol]
  · intro h1 h2
    obtain ⟨ hb, cs, hsq, hte ⟩ :=
      snapRetryShape o parent vid reqSize w e2 h1 h2
    have hres := snapRetryRun o parent vid reqSize w cs e2 hb hsq hte h2
    rw [hres]
    have hvol : vid ∈ (w.cloneSnapshot parent vid).volumes :=
      World.mem_volumes_cloneSnapshot w parent vid
    refine ⟨ by simp, hvol, ?_ ⟩
    have hres2 := snapRetryRun o parent vid reqSize
      (w.cloneSnapshot parent vid) cs e2 hb hsq hte h2
    rw [hres2, World.cloneSnapshot_eq_of_mem hvol]

/-- C3 witness: a pending clone state at a concrete input: the retryable
error propagates, the compensation actions are absent from the trace, the
snapshot and clone remain, and the re-invocation returns the identical
result. -/
theorem claim_C3_witness :
    (Action.compPurge "c"
      ∉ (CreateCloneFromSubvolume
          ⟨ true, true, some ⟨ "pending", ⟨ "", "", "" ⟩, "", "" ⟩,
            true, true, true, true ⟩ "p" "c" 5 ⟨ [], ["p"], [("p", 3)] ⟩).trace) ∧
    (CreateCloneFromSubvolume
        ⟨ true, true, some ⟨ "pending", ⟨ "", "", "" ⟩, "", "" ⟩,
          true, true, true, true ⟩ "p" "c" 5
        (CreateCloneFromSubvolume
          ⟨ true, true, some ⟨ "pending", ⟨ "", "", "" ⟩, "", "" ⟩,
            true, true, true, true ⟩ "p" "c" 5
          ⟨ [], ["p"], [("p", 3)] ⟩).world
      = CreateCloneFromSubvolume
          ⟨ true, true, some ⟨ "pending", ⟨ "", "", "" ⟩, "", "" ⟩,
            true, true, true, true ⟩ "p" "c" 5 ⟨ [], ["p"], [("p", 3)] ⟩) ∧
    (CreateCloneFromSnapshot
        ⟨ true, true, some ⟨ "pending", ⟨ "", "", "" ⟩, "", "" ⟩,
          true, true, true, true ⟩ "p" "c" 5
        (CreateCloneFromSnapshot
          ⟨ true, true, some ⟨ "pending", ⟨ "", "", "" ⟩, "", "" ⟩,
            true, true, true, true ⟩ "p" "c" 5
          ⟨ [], ["p"], [("p", 3)] ⟩).world
      = CreateCloneFromSnapshot
          ⟨ true, true, some ⟨ "pending", ⟨ "", "", "" ⟩, "", "" ⟩,
            true, true, true, true ⟩ "p" "c" 5 ⟨ [], ["p"], [("p", 3)] ⟩) := by
  have h := claim_C3
    ⟨ true, true, some ⟨ "pending", ⟨ "", "", "" ⟩, "", "" ⟩,
      true, true, true, true ⟩ "p" "c" 5 ⟨ [], ["p"], [("p", 3)] ⟩
    CephErr.clonePending CephErr.clonePending
  have h1 := h.1 rfl rfl
  have h2 := h.2 rfl rfl
  exact ⟨ h1.1, h1.2.2.2.2.2, h2.2.2 ⟩

/-! ## C4 — compensation on non-retryable terminal errors -/

theorem subvolTerminalShape (o : CloneOracle) (parent vid : String)
    (reqSize : Nat) (w : World) (e : CephErr)
    (ha : o.createSnapOk = true)
    (h1 : (CreateCloneFromSubvolume o parent vid reqSize w).err = some e)
    (h2 : IsCloneRetryError e = false) :
    ∃ t w1, Action.compPurge vid ∉ t ∧ Action.compDeleteSnap vid ∉ t ∧
      CreateCloneFromSubvolume o parent vid reqSize w =
        ⟨ (compensateSubvolume o vid w1).1, some e,
          t ++ [Action.compPurge vid, Action.compDeleteSnap vid] ⟩ := by
  rcases o with ⟨ a, b, sq, c, d, p, q ⟩
  simp only at ha
  subst ha
  cases b
  · refine ⟨ [Action.createSnap vid, Action.cloneSnap vid],
      w.createSnapshot vid, by simp, by simp, ?_ ⟩
    simp [CreateCloneFromSubvolume, err_exitSubvolume] at h1
    subst h1
    simp [CreateCloneFromSubvolume, exitSubvolume, IsCloneRetryError,
      compensateSubvolume]
  rcases sq with _ | cs
  · refine ⟨ [Action.createSnap vid, Action.cloneSnap vid,
      Action.queryState],
      (w.createSnapshot vid).cloneSnapshot parent vid, by simp, by simp, ?_ ⟩
    simp [CreateCloneFromSubvolume, err_exitSubvolume] at h1
    subst h1
    simp [CreateCloneFromSubvolume, exitSubvolume, IsCloneRetryError,
      compensateSubvolume]
  rcases hte : cs.ToError with _ | e2
  · cases c
    · refine ⟨ [Action.createSnap vid, Action.cloneSnap vid,
        Action.queryState, Action.expand vid reqSize],
        (w.createSnapshot vid).cloneSnapshot parent vid,
        by simp, by simp, ?_ ⟩
      simp [CreateCloneFromSubvolume, hte, err_exitSubvolume] at h1
      subst h1
      simp [CreateCloneFromSubvolume, hte, exitSubvolume, IsCloneRetryError,
        compensateSubvolume]
    · cases d
      · refine ⟨ [Action.createSnap vid, Action.cloneSnap vid,
          Action.queryState, Action.expand vid reqSize,
          Action.deleteSnap vid],
          ((w.createSnapshot vid).cloneSnapshot parent vid).expandVolume
            vid reqSize,
          by simp, by simp, ?_ ⟩
        simp [CreateCloneFromSubvolume, hte, err_exitSubvolume] at h1
        subst h1
        simp [CreateCloneFromSubvolume, hte, exitSubvolume,
          IsCloneRetryError, compensateSubvolume]
      · simp [CreateCloneFromSubvolume, hte, err_exitSubvolume] at h1
  · refine ⟨ [Action.createSnap vid, Action.cloneSnap vid,
      Action.queryState],
      (w.createSnapshot vid).cloneSnapshot parent vid, by simp, by simp, ?_ ⟩
    simp [CreateCloneFromSubvolume, hte, err_exitSubvolume] at h1
    subst h1
    simp [CreateCloneFromSubvolume, hte, exitSubvolume, h2,
      compensateSubvolume]

theorem subvolErrOblivious (o : CloneOracle) (p2 q2 : Bool)
    (parent vid : String) (reqSize : Nat) (w : World) :
    (CreateCloneFromSubvolume
        ⟨ o.createSnapOk, o.cloneSnapOk, o.stateQuery, o.expandOk,
          o.deleteSnapOk, p2, q2 ⟩ parent vid reqSize w).err
      = (CreateCloneFromSubvolume o parent vid reqSize w).err := by
  rcases o with ⟨ a, b, sq, c, d, p, q ⟩
  simp only
  cases a
  · rfl
  cases b
  · simp [CreateCloneFromSubvolume, err_exitSubvolume]
  rcases sq with _ | cs
  · simp [CreateCloneFromSubvolume, err_exitSubvolume]
  rcases hte : cs.ToError with _ | e2
  · cases c
    · simp [CreateCloneFromSubvolume, hte, err_exitSubvolume]
    · cases d
      · simp [CreateCloneFromSubvolume, hte, err_exitSubvolume]
      · simp [CreateCloneFromSubvolume, hte, err_exitSubvolume]
  · simp [CreateCloneFromSubvolume, hte, err_exitSubvolume]

/-- C4 counterexample: when the initial snapshot creation itself fails, the
function ends with a non-retryable terminal error, yet no compensation runs
— the deferred compensation block is registered only after the snapshot
creation step, so the claim's "runs exactly once" fails on this path. -/
theorem claim_C4_cex :
    (CreateCloneFromSubvolume ⟨ false, true, none, true, true, true, true ⟩
        "p" "c" 5 ⟨ [], [], [] ⟩).err
      = some (CephErr.opFailed "CreateSnapshot") ∧
    IsCloneRetryError (CephErr.opFailed "CreateSnapshot") = false ∧
    Action.compPurge "c" ∉
      (CreateCloneFromSubvolume ⟨ false, true, none, true, true, true, true ⟩
        "p" "c" 5 ⟨ [], [], [] ⟩).trace := by
  refine ⟨ rfl, rfl, ?_ ⟩
  decide

/-- C4 (amended): when `CreateCloneFromSubvolume` ends with a non-retryable
terminal error after the initial snapshot creation succeeded, its
compensator runs exactly once — the trace ends with the purge of the target
volume followed by the deletion of the intermediate snapshot, neither
appearing earlier — and the returned error is the original triggering error,
unchanged by the success or failure of either compensation call. -/
theorem claim_C4_amended (o : CloneOracle) (parent vid : String)
    (reqSize : Nat) (w : World) (e : CephErr) (p2 q2 : Bool)
    (ha : o.createSnapOk = true)
    (h1 : (CreateCloneFromSubvolume o parent vid reqSize w).err = some e)
    (h2 : IsCloneRetryError e = false) :
    (∃ t, Action.compPurge vid ∉ t ∧ Action.compDeleteSnap vid ∉ t ∧
      (CreateCloneFromSubvolume o parent vid reqSize w).trace
        = t ++ [Action.compPurge vid, Action.compDeleteSnap vid]) ∧
    (CreateCloneFromSubvolume o parent vid reqSize w).trace.count
        (Action.compPurge vid) = 1 ∧
    (CreateCloneFromSubvolume o parent vid reqSize w).trace.count
        (Action.compDeleteSnap vid) = 1 ∧
    (CreateCloneFromSubvolume
        ⟨ o.createSnapOk, o.cloneSnapOk, o.stateQuery, o.expandOk,
          o.deleteSnapOk, p2, q2 ⟩ parent vid reqSize w).err = some e := by
  obtain ⟨ t, w1, hp, hd, hres ⟩ :=
    subvolTerminalShape o parent vid reqSize w e ha h1 h2
  have htr : (CreateCloneFromSubvolume o parent vid reqSize w).trace
      = t ++ [Action.compPurge vid, Action.compDeleteSnap vid] := by
    rw [hres]
  refine ⟨ ⟨ t, hp, hd, htr ⟩, ?_, ?_, ?_ ⟩
  · rw [htr, List.count_append, List.count_eq_zero.mpr hp]
    simp
  · rw [htr, List.count_append, List.count_eq_zero.mpr hd]
    simp
  · rw [subvolErrOblivious o p2 q2 parent vid reqSize w]
    exact h1

/-- C4 witness: a failed clone state at a concrete input: the compensation
runs once at the end of the trace, and the returned error stays the
triggering `CloneFailed` error even when both compensation calls fail. -/
theorem claim_C4_amended_witness :
    (∃ t, Action.compPurge "c" ∉ t ∧ Action.compDeleteSnap "c" ∉ t ∧
      (CreateCloneFromSubvolume
          ⟨ true, true, some ⟨ "failed", ⟨ "", "", "" ⟩, "9", "bad" ⟩,
            true, true, true, true ⟩ "p" "c" 5 ⟨ [], [], [] ⟩).trace
        = t ++ [Action.compPurge "c", Action.compDeleteSnap "c"]) ∧
    (CreateCloneFromSubvolume
        ⟨ true, true, some ⟨ "failed", ⟨ "", "", "" ⟩, "9", "bad" ⟩,
          true, true, true, true ⟩ "p" "c" 5 ⟨ [], [], [] ⟩).trace.count
        (Action.compPurge "c") = 1 ∧
    (CreateCloneFromSubvolume
        ⟨ true, true, some ⟨ "failed", ⟨ "", "", "" ⟩, "9", "bad" ⟩,
          true, true, false, false ⟩ "p" "c" 5 ⟨ [], [], [] ⟩).err
      = some (CephErr.cloneFailed "bad" "9") := by
  have h := claim_C4_amended
    ⟨ true, true, some ⟨ "failed", ⟨ "", "", "" ⟩, "9", "bad" ⟩,
      true, true, true, true ⟩ "p" "c" 5 ⟨ [], [], [] ⟩
    (CephErr.cloneFailed "bad" "9") false false rfl rfl rfl
  exact ⟨ h.1, h.2.1, h.2.2.2 ⟩

/-! ## C5 — successful clones are resized before the snapshot is deleted -/

theorem subvolSuccessShape (o : CloneOracle) (parent vid : String)
    (reqSize : Nat) (w : World)
    (h : (CreateCloneFromSubvolume o parent vid reqSize w).err = none) :
    o.createSnapOk = true ∧ o.cloneSnapOk = true ∧
    (∃ cs, o.stateQuery = some cs ∧ cs.ToError = none) ∧
    o.expandOk = true ∧ o.deleteSnapOk = true ∧
    CreateCloneFromSubvolume o parent vid reqSize w =
      ⟨ (((w.createSnapshot vid).cloneSnapshot parent vid).expandVolume vid
          reqSize).deleteSnapshot vid, none,
        [Action.createSnap vid, Action.cloneSnap vid, Action.queryState,
          Action.expand vid reqSize, Action.deleteSnap vid] ⟩ := by
  rcases o with ⟨ a, b, sq, c, d, p, q ⟩
  cases a
  · simp [CreateCloneFromSubvolume] at h
  cases b
  · simp [CreateCloneFromSubvolume, err_exitSubvolume] at h
  rcases sq with _ | cs
  · simp [CreateCloneFromSubvolume, err_exitSubvolume] at h
  rcases hte : cs.ToError with _ | e2
  · cases c
    · simp [CreateCloneFromSubvolume, hte, err_exitSubvolume] at h
    · cases d
      · simp [CreateCloneFromSubvolume, hte, err_exitSubvolume] at h
      · refine ⟨ rfl, rfl, ⟨ cs, rfl, hte ⟩, rfl, rfl, ?_ ⟩
        simp [CreateCloneFromSubvolume, hte, exitSubvolume]
  · simp [CreateCloneFromSubvolume, hte, err_exitSubvolume] at h

/-- C5: every run of `CreateCloneFromSubvolume` that returns success has
resized the new volume to the caller's requested size — the final size
equals the request for every initial world, hence regardless of the parent's
size — and deleted the intermediate snapshot as the last step, strictly
after the resize; moreover the snapshot-deletion step is reached only when
snapshot creation, cloning, a clean clone state, and the resize have all
succeeded. -/
theorem claim_C5 (o : CloneOracle) (parent vid : String) (reqSize : Nat)
    (w : World) :
    ((CreateCloneFromSubvolume o parent vid reqSize w).err = none →
      ((CreateCloneFromSubvolume o parent vid reqSize w).world.volSize vid
          = some reqSize ∧
        (CreateCloneFromSubvolume o parent vid reqSize w).trace
          = [Action.createSnap vid, Action.cloneSnap vid, Action.queryState,
              Action.expand vid reqSize, Action.deleteSnap vid] ∧
        (vid ∉ w.snapshots →
          vid ∉ (CreateCloneFromSubvolume o parent vid reqSize
            w).world.snapshots))) ∧
    (Action.deleteSnap vid ∈ (CreateCloneFromSubvolume o parent vid reqSize
        w).trace →
      o.createSnapOk = true ∧ o.cloneSnapOk = true ∧
      (∃ cs, o.stateQuery = some cs ∧ cs.ToError = none) ∧
      o.expandOk = true) := by
  constructor
  · intro h
    obtain ⟨ ha, hb, ⟨ cs, hsq, hte ⟩, hc, hd, hres ⟩ :=
      subvolSuccessShape o parent vid reqSize w h
    rw [hres]
    refine ⟨ ?_, rfl, ?_ ⟩
    · show ((((w.createSnapshot vid).cloneSnapshot parent vid).expandVolume
        vid reqSize).deleteSnapshot vid).volSize vid = some reqSize
      have hs : ((((w.createSnapshot vid).cloneSnapshot parent
          vid).expandVolume vid reqSize).deleteSnapshot vid).volSize vid
        = (((w.createSnapshot vid).cloneSnapshot parent vid).expandVolume
            vid reqSize).volSize vid := rfl
      rw [hs, World.volSize_expandVolume]
    · intro hvw
      show vid ∉ ((((w.createSnapshot vid).cloneSnapshot parent
        vid).expandVolume vid reqSize).deleteSnapshot vid).snapshots
      have hsn : ((((w.createSnapshot vid).cloneSnapshot parent
          vid).expandVolume vid reqSize).deleteSnapshot vid).snapshots
        = ((w.createSnapshot vid).snapshots).erase vid := by
        simp [World.deleteSnapshot, World.snapshots_expandVolume,
          World.snapshots_cloneSnapshot]
      rw [hsn]
      have hcr : (w.createSnapshot vid).snapshots = vid :: w.snapshots := by
        simp [World.createSnapshot, hvw]
      rw [hcr, List.erase_cons_head]
      exact hvw
  · intro hmem
    rcases o with ⟨ a, b, sq, c, d, p, q ⟩
    cases a
    · simp [CreateCloneFromSubvolume] at hmem
    cases b
    · simp [CreateCloneFromSubvolume, exitSubvolume, IsCloneRetryError,
        compensateSubvolume] at hmem
    rcases sq with _ | cs
    · simp [CreateCloneFromSubvolume, exitSubvolume, IsCloneRetryError,
        compensateSubvolume] at hmem
    rcases hte : cs.ToError with _ | e2
    · cases c
      · simp [CreateCloneFromSubvolume, hte, exitSubvolume,
          IsCloneRetryError, compensateSubvolume] at hmem
      · exact ⟨ rfl, rfl, ⟨ cs, rfl, hte ⟩, rfl ⟩
    · by_cases hre : IsCloneRetryError e2 = true
      · simp [CreateCloneFromSubvolume, hte, exitSubvolume, hre] at hmem
      · simp [CreateCloneFromSubvolume, hte, exitSubvolume, hre,
          compensateSubvolume] at hmem

/-- C5 witness: a complete clone state at a concrete input whose parent has
size 3 and whose request is 7: the final size is the requested 7, the trace
resizes before deleting the snapshot, and the snapshot is gone. -/
theorem claim_C5_witness :
    (CreateCloneFromSubvolume
        ⟨ true, true, some ⟨ "complete", ⟨ "", "", "" ⟩, "", "" ⟩,
          true, true, true, true ⟩ "p" "c" 7
        ⟨ [], ["p"], [("p", 3)] ⟩).world.volSize "c" = some 7 ∧
    (CreateCloneFromSubvolume
        ⟨ true, true, some ⟨ "complete", ⟨ "", "", "" ⟩, "", "" ⟩,
          true, true, true, true ⟩ "p" "c" 7
        ⟨ [], ["p"], [("p", 3)] ⟩).trace
      = [Action.createSnap "c", Action.cloneSnap "c", Action.queryState,
          Action.expand "c" 7, Action.deleteSnap "c"] ∧
    "c" ∉ (CreateCloneFromSubvolume
        ⟨ true, true, some ⟨ "complete", ⟨ "", "", "" ⟩, "", "" ⟩,
          true, true, true, true ⟩ "p" "c" 7
        ⟨ [], ["p"], [("p", 3)] ⟩).world.snapshots := by
  have h := (claim_C5
    ⟨ true, true, some ⟨ "complete", ⟨ "", "", "" ⟩, "", "" ⟩,
      true, true, true, true ⟩ "p" "c" 7 ⟨ [], ["p"], [("p", 3)] ⟩).1 rfl
  exact ⟨ h.1, h.2.1, h.2.2 (by decide) ⟩

end CephCSI
